import Mathlib

/-!
Verification of the malnutrition-backend repository.

The repository has two source files:
* `train_model_final.py` — `MalnutritionModel.predict`, a pure classification
  function over (weight_kg, height_cm, age_years, sex, edema) that delegates
  the WHZ z-score computation to the external `pygrowup` calculator
  (`self.calculator.wfl`, which may raise);
* `app.py` — FastAPI endpoints `/assess` (calls `predict`, persists a
  `ChildRecord` when the status is not an error, otherwise raises
  HTTP 400) and `/stats/{anganwadi_code}` (grouped counts).

We embed these shallowly.  Python floats are modelled by `ℚ`; the external
`pygrowup` calculator is an oracle parameter `wfl` returning
`Except String ℚ` (an `Except.error` models a raised exception, which the
Python code catches); the database is a `List ChildRecord` (SQLAlchemy
appends on commit); `HTTPException` raised by an endpoint is an
`Except.error` outcome paired with the unchanged store.
-/

/-- The WHZ resolver signature of `pygrowup`'s `Calculator.wfl`:
arguments are (weight_kg, age_months, sex_code, height_cm); a raised
exception is modelled as `Except.error` carrying `str(e)`. -/
abbrev Wfl : Type := ℚ → ℚ → Char → ℚ → Except String ℚ

/-- The dictionary returned by `MalnutritionModel.predict`.  The `message`
key is present only on the error path, hence `Option`. -/
structure ClassificationResult where
  status : String
  z_score : ℚ
  color_code : String
  action : String
  message : Option String
deriving Repr, DecidableEq

/-- `s.lower().startswith(c)` for a single character `c`, expressed on the
character list (kernel-computable, unlike `String.toLower`). -/
def lower_starts_with (s : String) (c : Char) : Bool :=
  match s.data.map Char.toLower with
  | [] => false
  | d :: _ => d = c

/-- `sex_code = 'M' if sex.lower().startswith('m') else 'F'`
(line 28 of `train_model_final.py`). -/
def sex_code (sex : String) : Char :=
  if lower_starts_with sex 'm' then 'M' else 'F'

/-- Round-half-to-even on `ℚ`, the tie-breaking rule of Python's builtin
`round`. -/
def roundHalfEven (q : ℚ) : ℤ :=
  if q - ⌊q⌋ < 1/2 then ⌊q⌋
  else if 1/2 < q - ⌊q⌋ then ⌊q⌋ + 1
  else if ⌊q⌋ % 2 = 0 then ⌊q⌋ else ⌊q⌋ + 1

/-- Python's `round(x, 2)`: round to 2 decimal places, ties to even. -/
def round2 (q : ℚ) : ℚ := (roundHalfEven (q * 100) : ℚ) / 100

/-- `MalnutritionModel.predict` from `train_model_final.py`, lines 9–68,
parameterised by the external WHZ resolver `wfl`. -/
def predict (wfl : Wfl) (weight_kg height_cm age_years : ℚ)
    (sex : String) (edema : Bool) : ClassificationResult :=
  -- 1. CRITICAL RULE: Edema = SAM immediately
  if edema then
    { status := "Severe Acute Malnutrition (SAM)"
      z_score := -5
      color_code := "RED"
      action := "Urgent Medical Attention Required (Edematous Malnutrition)"
      message := none }
  else
    -- 2. Convert Age to months
    let age_months := age_years * 12
    -- 3. Sex standardization
    match wfl weight_kg age_months (sex_code sex) height_cm with
    | Except.error e =>
      { status := "Error"
        z_score := 0
        color_code := "GRAY"
        action := "Check Inputs"
        message := some ("Could not calculate score: " ++ e) }
    | Except.ok whz =>
      -- 5. Classify based on WHO Z-score cutoffs
      if whz < -3 then
        { status := "Severe Acute Malnutrition (SAM)", z_score := round2 whz
          color_code := "RED", action := "Urgent Treatment Needed"
          message := none }
      else if -3 ≤ whz ∧ whz < -2 then
        { status := "Moderate Acute Malnutrition (MAM)", z_score := round2 whz
          color_code := "YELLOW", action := "Supplementary Feeding Required"
          message := none }
      else if -2 ≤ whz ∧ whz < 2 then
        { status := "Normal", z_score := round2 whz
          color_code := "GREEN", action := "Maintain Healthy Diet"
          message := none }
      else
        { status := "Possible Overweight", z_score := round2 whz
          color_code := "ORANGE", action := "Monitor Diet"
          message := none }

/-- A row of the `children` table of `app.py` (fields set by
`assess_child`; the auto-increment `id` plays no role in the claims). -/
structure ChildRecord where
  anganwadi_code : String
  name : String
  age_years : ℚ
  sex : String
  height : ℚ
  weight : ℚ
  status : String
  z_score : ℚ
  color_code : String
deriving Repr, DecidableEq

/-- Request body of `/assess` (`ChildAssessmentSchema`). -/
structure ChildAssessmentSchema where
  anganwadi_code : String
  child_name : String
  age_years : ℚ
  sex : String
  height_cm : ℚ
  weight_kg : ℚ
  edema : Bool
deriving Repr, DecidableEq

/-- A raised `HTTPException`. -/
structure HTTPError where
  status_code : ℕ
  detail : String
deriving Repr, DecidableEq

/-- Successful response body of `/assess`. -/
structure AssessResponse where
  child_name : String
  diagnosis : ClassificationResult
deriving Repr, DecidableEq

/-- The `/assess` endpoint (`assess_child`, `app.py` lines 132–164):
returns the store after the call together with either the raised
`HTTPException` or the JSON response. -/
def assess_child (wfl : Wfl) (data : ChildAssessmentSchema)
    (db : List ChildRecord) :
    List ChildRecord × Except HTTPError AssessResponse :=
  let result := predict wfl data.weight_kg data.height_cm data.age_years
    data.sex data.edema
  if result.status = "Error" then
    (db, Except.error { status_code := 400, detail := "Invalid Data" })
  else
    let new_child : ChildRecord :=
      { anganwadi_code := data.anganwadi_code
        name := data.child_name
        age_years := data.age_years
        sex := data.sex
        height := data.height_cm
        weight := data.weight_kg
        status := result.status
        z_score := result.z_score
        color_code := result.color_code }
    (db ++ [new_child],
     Except.ok { child_name := data.child_name, diagnosis := result })

/-- Response body of `/stats/{anganwadi_code}`. -/
structure DashboardStats where
  anganwadi_code : String
  local_stats : List (String × ℕ)
  total_checked_here : ℕ
  total_checked_global : ℕ
deriving Repr, DecidableEq

/-- The `/stats/{anganwadi_code}` endpoint (`get_dashboard_stats`,
`app.py` lines 166–184).  The SQL `GROUP BY status` over the rows of the
requested anganwadi is one `(status, count)` pair per distinct status. -/
def get_dashboard_stats (code : String) (db : List ChildRecord) :
    DashboardStats :=
  let local_records := db.filter (fun r => r.anganwadi_code = code)
  let statuses := local_records.map (fun r => r.status)
  let local_stats := statuses.dedup.map (fun s => (s, statuses.count s))
  { anganwadi_code := code
    local_stats := local_stats
    total_checked_here := (local_stats.map (fun p => p.2)).sum
    total_checked_global := db.length }

/-- C1: with `edema = true`, `predict` returns the fixed record with status
SAM, color RED, z-score exactly -5.0
and the edematous-malnutrition action, for every resolver and all
measurement values; since the result is the same for every resolver `wfl`,
no reference-table computation influences this path. -/
theorem predict_edema_short_circuit (wfl : Wfl)
    (weight_kg height_cm age_years : ℚ) (sex : String) :
    predict wfl weight_kg height_cm age_years sex true =
      { status := "Severe Acute Malnutrition (SAM)"
        z_score := -5
        color_code := "RED"
        action := "Urgent Medical Attention Required (Edematous Malnutrition)"
        message := none } := by
  rfl

/-- C2: when `edema = false` and the resolver succeeds with value `whz`,
`predict` classifies by half-open bands — `whz < -3` SAM/RED,
`-3 ≤ whz < -2` MAM/YELLOW, `-2 ≤ whz < 2` NORMAL/GREEN, `whz ≥ 2`
OVERWEIGHT/ORANGE — and never returns the error status; in particular
`whz = -3` gives MAM, `whz = -2` gives NORMAL and `whz = 2` gives
OVERWEIGHT. -/
theorem predict_classifies_by_bands (wfl : Wfl)
    (weight_kg height_cm age_years whz : ℚ) (sex : String)
    (hres : wfl weight_kg (age_years * 12) (sex_code sex) height_cm =
      Except.ok whz) :
    (predict wfl weight_kg height_cm age_years sex false).status ≠ "Error" ∧
    (whz < -3 →
      predict wfl weight_kg height_cm age_years sex false =
        { status := "Severe Acute Malnutrition (SAM)", z_score := round2 whz
          color_code := "RED", action := "Urgent Treatment Needed"
          message := none }) ∧
    (-3 ≤ whz → whz < -2 →
      predict wfl weight_kg height_cm age_years sex false =
        { status := "Moderate Acute Malnutrition (MAM)", z_score := round2 whz
          color_code := "YELLOW", action := "Supplementary Feeding Required"
          message := none }) ∧
    (-2 ≤ whz → whz < 2 →
      predict wfl weight_kg height_cm age_years sex false =
        { status := "Normal", z_score := round2 whz
          color_code := "GREEN", action := "Maintain Healthy Diet"
          message := none }) ∧
    (2 ≤ whz →
      predict wfl weight_kg height_cm age_years sex false =
        { status := "Possible Overweight", z_score := round2 whz
          color_code := "ORANGE", action := "Monitor Diet"
          message := none }) := by
  have hp : predict wfl weight_kg height_cm age_years sex false =
      (if whz < -3 then
        { status := "Severe Acute Malnutrition (SAM)", z_score := round2 whz
          color_code := "RED", action := "Urgent Treatment Needed"
          message := none }
      else if -3 ≤ whz ∧ whz < -2 then
        { status := "Moderate Acute Malnutrition (MAM)", z_score := round2 whz
          color_code := "YELLOW", action := "Supplementary Feeding Required"
          message := none }
      else if -2 ≤ whz ∧ whz < 2 then
        { status := "Normal", z_score := round2 whz
          color_code := "GREEN", action := "Maintain Healthy Diet"
          message := none }
      else
        { status := "Possible Overweight", z_score := round2 whz
          color_code := "ORANGE", action := "Monitor Diet"
          message := none }) := by
    simp only [predict, Bool.false_eq_true, if_false, hres]
  refine ⟨?_, ?_, ?_, ?_, ?_⟩
  · rw [hp]; split_ifs <;> simp
  · intro h1
    rw [hp, if_pos h1]
  · intro h1 h2
    rw [hp, if_neg (by linarith), if_pos ⟨h1, h2⟩]
  · intro h1 h2
    rw [hp, if_neg (by linarith),
      if_neg (by rintro ⟨-, hb⟩; linarith), if_pos ⟨h1, h2⟩]
  · intro h1
    rw [hp, if_neg (by linarith),
      if_neg (by rintro ⟨-, hb⟩; linarith),
      if_neg (by rintro ⟨-, hb⟩; linarith)]

/-- Witness for C2 at the `-3` boundary: a resolver answering exactly `-3`
yields MAM/YELLOW, not SAM. -/
theorem predict_classifies_by_bands_witness :
    predict (fun _ _ _ _ => Except.ok (-3)) 5 60 (1/2) "F" false =
      { status := "Moderate Acute Malnutrition (MAM)", z_score := -3
        color_code := "YELLOW", action := "Supplementary Feeding Required"
        message := none } := by
  have h := (predict_classifies_by_bands (fun _ _ _ _ => Except.ok (-3))
    5 60 (1/2) (-3) "F" rfl).2.2.1 (by norm_num) (by norm_num)
  rw [h]
  have : round2 (-3) = -3 := by
    norm_num [round2, roundHalfEven]
  rw [this]

/-- C3 counterexample: the sex string "x" does not start with an "f"-like
token, yet the code normalizes it to female, not male: line 28 of
`train_model_final.py` tests `startswith('m')`, so everything
non-male-like defaults to FEMALE.  A resolver that fails on sex code 'F'
makes this observable through `predict`. -/
theorem sex_code_defaults_to_male_counterexample :
    lower_starts_with "x" 'f' = false ∧
    sex_code "x" = 'F' ∧ ('F' : Char) ≠ 'M' ∧
    (predict (fun _ _ c _ => if c = 'M' then Except.ok 0
      else Except.error "sex was not male") 1 1 1 "x" false).status =
      "Error" := by
  refine ⟨by decide, by decide, by decide, by decide⟩

/-- C3 amended: `predict` normalizes sex case-insensitively (via
`lower()`) to a two-valued code, and every input not recognizable as male
(not starting with an "m"-like token) is treated as FEMALE; the
normalization defaults to female, not male. -/
theorem sex_code_defaults_to_female (sex : String) :
    (sex_code sex = 'M' ∨ sex_code sex = 'F') ∧
    (lower_starts_with sex 'm' = false → sex_code sex = 'F') ∧
    (lower_starts_with sex 'm' = true → sex_code sex = 'M') := by
  unfold sex_code
  split_ifs with h <;> simp_all

/-- Witness for C3 amended at sex = "x". -/
theorem sex_code_defaults_to_female_witness :
    sex_code "x" = 'F' :=
  (sex_code_defaults_to_female "x").2.1 (by decide)

/-- C4: when `edema = false` and the resolver raises (modelled as
`Except.error e`), `predict` converts the failure into the fixed
error record — status "Error", z-score 0, GRAY, "Check Inputs", with a
message describing the failure — instead of propagating it; in the
embedding `predict` is a total function, so no exception escapes. -/
theorem predict_catches_resolver_failure (wfl : Wfl)
    (weight_kg height_cm age_years : ℚ) (sex : String) (e : String)
    (hres : wfl weight_kg (age_years * 12) (sex_code sex) height_cm =
      Except.error e) :
    predict wfl weight_kg height_cm age_years sex false =
      { status := "Error"
        z_score := 0
        color_code := "GRAY"
        action := "Check Inputs"
        message := some ("Could not calculate score: " ++ e) } := by
  simp only [predict, Bool.false_eq_true, if_false, hres]

/-- Witness for C4 with a resolver that always raises. -/
theorem predict_catches_resolver_failure_witness :
    predict (fun _ _ _ _ => Except.error "age out of range") 4 200 7 "F"
      false =
      { status := "Error"
        z_score := 0
        color_code := "GRAY"
        action := "Check Inputs"
        message := some "Could not calculate score: age out of range" } :=
  predict_catches_resolver_failure (fun _ _ _ _ =>
    Except.error "age out of range") 4 200 7 "F" "age out of range" rfl

/-- C5: the z-score in the result of `predict` is `round(whz, 2)` on the
successful path, exactly the sentinel -5.0 on the edema path, and exactly
0 on the error path. -/
theorem predict_z_score_policy (wfl : Wfl)
    (weight_kg height_cm age_years whz : ℚ) (sex : String) (msg : String) :
    (predict wfl weight_kg height_cm age_years sex true).z_score = -5 ∧
    (wfl weight_kg (age_years * 12) (sex_code sex) height_cm =
        Except.error msg →
      (predict wfl weight_kg height_cm age_years sex false).z_score = 0) ∧
    (wfl weight_kg (age_years * 12) (sex_code sex) height_cm =
        Except.ok whz →
      (predict wfl weight_kg height_cm age_years sex false).z_score =
        round2 whz) := by
  refine ⟨rfl, ?_, ?_⟩
  · intro hres
    simp only [predict, Bool.false_eq_true, if_false, hres]
  · intro hres
    simp only [predict, Bool.false_eq_true, if_false, hres]
    split_ifs <;> rfl

/-- Witness for C5: a resolved `whz = 2.4675` is stored as `2.47`. -/
theorem predict_z_score_policy_witness :
    (predict (fun _ _ _ _ => Except.ok (987/400)) 12 90 3 "Male"
      false).z_score = 247/100 := by
  have h := (predict_z_score_policy (fun _ _ _ _ => Except.ok (987/400))
    12 90 3 (987/400) "Male" "m").2.2 rfl
  rw [h]
  norm_num [round2, roundHalfEven]

/-- C6 counterexample: the status→action mapping is NOT a single fixed
total mapping — an edema call and a `whz < -3` call both return the SAM
status but with two different action strings ("Urgent Medical Attention
Required (Edematous Malnutrition)" vs "Urgent Treatment Needed"). -/
theorem status_action_mapping_counterexample :
    (predict (fun _ _ _ _ => Except.ok 0) 1 1 1 "m" true).status =
      (predict (fun _ _ _ _ => Except.ok (-4)) 1 1 1 "m" false).status ∧
    (predict (fun _ _ _ _ => Except.ok 0) 1 1 1 "m" true).action ≠
      (predict (fun _ _ _ _ => Except.ok (-4)) 1 1 1 "m" false).action := by
  constructor
  · decide
  · decide

/-- C6 amended: the status→color mapping is fixed and total (SAM↔RED,
MAM↔YELLOW, NORMAL↔GREEN, OVERWEIGHT↔ORANGE, ERROR↔GRAY) and every status
has a fixed action string, EXCEPT that SAM carries one of two fixed
actions: the edematous-malnutrition action on the edema path and "Urgent
Treatment Needed" on the z-score path. -/
theorem status_color_action_mapping (wfl : Wfl)
    (weight_kg height_cm age_years : ℚ) (sex : String) (edema : Bool) :
    ((predict wfl weight_kg height_cm age_years sex edema).status =
        "Severe Acute Malnutrition (SAM)" →
      (predict wfl weight_kg height_cm age_years sex edema).color_code =
        "RED" ∧
      ((predict wfl weight_kg height_cm age_years sex edema).action =
          "Urgent Medical Attention Required (Edematous Malnutrition)" ∨
        (predict wfl weight_kg height_cm age_years sex edema).action =
          "Urgent Treatment Needed")) ∧
    ((predict wfl weight_kg height_cm age_years sex edema).status =
        "Moderate Acute Malnutrition (MAM)" →
      (predict wfl weight_kg height_cm age_years sex edema).color_code =
        "YELLOW" ∧
      (predict wfl weight_kg height_cm age_years sex edema).action =
        "Supplementary Feeding Required") ∧
    ((predict wfl weight_kg height_cm age_years sex edema).status =
        "Normal" →
      (predict wfl weight_kg height_cm age_years sex edema).color_code =
        "GREEN" ∧
      (predict wfl weight_kg height_cm age_years sex edema).action =
        "Maintain Healthy Diet") ∧
    ((predict wfl weight_kg height_cm age_years sex edema).status =
        "Possible Overweight" →
      (predict wfl weight_kg height_cm age_years sex edema).color_code =
        "ORANGE" ∧
      (predict wfl weight_kg height_cm age_years sex edema).action =
        "Monitor Diet") ∧
    ((predict wfl weight_kg height_cm age_years sex edema).status =
        "Error" →
      (predict wfl weight_kg height_cm age_years sex edema).color_code =
        "GRAY" ∧
      (predict wfl weight_kg height_cm age_years sex edema).action =
        "Check Inputs") ∧
    ((predict wfl weight_kg height_cm age_years sex edema).status =
        "Severe Acute Malnutrition (SAM)" ∨
      (predict wfl weight_kg height_cm age_years sex edema).status =
        "Moderate Acute Malnutrition (MAM)" ∨
      (predict wfl weight_kg height_cm age_years sex edema).status =
        "Normal" ∨
      (predict wfl weight_kg height_cm age_years sex edema).status =
        "Possible Overweight" ∨
      (predict wfl weight_kg height_cm age_years sex edema).status =
        "Error") := by
  cases edema with
  | true => simp [predict]
  | false =>
    rcases hw : wfl weight_kg (age_years * 12) (sex_code sex) height_cm
      with e | whz
    · simp [predict, hw]
    · simp only [predict, Bool.false_eq_true, if_false, hw]
      split_ifs <;> simp

/-- Witness for C6 amended on the error path: GRAY pairs with
"Check Inputs". -/
theorem status_color_action_mapping_witness :
    (predict (fun _ _ _ _ => Except.error "bad") 1 1 1 "m"
      false).color_code = "GRAY" := by
  have h := (status_color_action_mapping (fun _ _ _ _ =>
    Except.error "bad") 1 1 1 "m" false).2.2.2.2.1 (by decide)
  exact h.1

/-- The values of the grouped counts sum to the number of grouped
elements. -/
theorem sum_grouped_counts (l : List String) :
    ((l.dedup.map (fun s => (s, l.count s))).map (fun p => p.2)).sum =
      l.length := by
  rw [List.map_map]
  exact List.sum_map_count_dedup_eq_length l

/-- C7: for every store and every anganwadi code, `total_checked_here`
equals the sum of the `local_stats` values (both equal the number of
records of that anganwadi), `total_checked_here ≤ total_checked_global`,
and a code with no matching records yields an empty mapping and zero
total rather than an error. -/
theorem stats_aggregation_invariants (code : String)
    (db : List ChildRecord) :
    ((get_dashboard_stats code db).local_stats.map (fun p => p.2)).sum =
      (get_dashboard_stats code db).total_checked_here ∧
    (get_dashboard_stats code db).total_checked_here =
      (db.filter (fun r => r.anganwadi_code = code)).length ∧
    (get_dashboard_stats code db).total_checked_here ≤
      (get_dashboard_stats code db).total_checked_global ∧
    ((∀ r ∈ db, r.anganwadi_code ≠ code) →
      (get_dashboard_stats code db).local_stats = [] ∧
      (get_dashboard_stats code db).total_checked_here = 0) := by
  have h2 : (get_dashboard_stats code db).total_checked_here =
      (db.filter (fun r => r.anganwadi_code = code)).length := by
    simp only [get_dashboard_stats]
    rw [sum_grouped_counts]
    exact List.length_map _ _
  refine ⟨rfl, h2, ?_, ?_⟩
  · rw [h2]
    exact List.length_filter_le _ db
  · intro hempty
    have hfil : db.filter (fun r => r.anganwadi_code = code) = [] := by
      simp only [List.filter_eq_nil_iff, decide_eq_true_eq]
      exact hempty
    constructor
    · simp [get_dashboard_stats, hfil]
    · rw [h2, hfil]
      rfl

/-- Witness for C7 on the empty store. -/
theorem stats_aggregation_invariants_witness :
    (get_dashboard_stats "AWC-1" []).local_stats = [] ∧
    (get_dashboard_stats "AWC-1" []).total_checked_here = 0 :=
  (stats_aggregation_invariants "AWC-1" []).2.2.2 (by simp)

/-- C8: `predict` is deterministic and stateless — it is a pure function
of its five inputs plus the resolver (the immutable reference table), so
any two calls on componentwise-equal inputs return identical results. -/
theorem predict_deterministic (wfl : Wfl)
    (w1 ht1 ag1 w2 ht2 ag2 : ℚ) (s1 s2 : String) (e1 e2 : Bool)
    (hw : w1 = w2) (hh : ht1 = ht2) (ha : ag1 = ag2) (hs : s1 = s2)
    (he : e1 = e2) :
    predict wfl w1 ht1 ag1 s1 e1 = predict wfl w2 ht2 ag2 s2 e2 := by
  rw [hw, hh, ha, hs, he]

/-- Witness for C8 at a concrete repeated call. -/
theorem predict_deterministic_witness :
    predict (fun _ _ _ _ => Except.ok 0) 10 85 2 "f" false =
      predict (fun _ _ _ _ => Except.ok 0) 10 85 2 "f" false :=
  predict_deterministic (fun _ _ _ _ => Except.ok 0)
    10 85 2 10 85 2 "f" "f" false false rfl rfl rfl rfl rfl

/-- Every status appearing in `local_stats` is the status of some stored
record. -/
theorem mem_local_stats_status (c : String) (db : List ChildRecord)
    (p : String × ℕ)
    (hp : p ∈ (get_dashboard_stats c db).local_stats) :
    ∃ r ∈ db, r.status = p.1 := by
  simp only [get_dashboard_stats, List.mem_map] at hp
  obtain ⟨s, hs, rfl⟩ := hp
  rw [List.mem_dedup] at hs
  simp only [List.mem_map] at hs
  obtain ⟨r, hr, rfl⟩ := hs
  rw [List.mem_filter] at hr
  exact ⟨r, hr.1, rfl⟩

/-- C9: when `predict` returns the "Error" status, `/assess` raises
HTTP 400 and leaves the store unchanged; every record in the store after
any `/assess` call was either already there or has a non-"Error" status,
so if the store never held an "Error" record, no aggregation count ever
mentions "Error". -/
theorem assess_child_never_persists_error (wfl : Wfl)
    (data : ChildAssessmentSchema) (db : List ChildRecord) :
    ((predict wfl data.weight_kg data.height_cm data.age_years data.sex
        data.edema).status = "Error" →
      assess_child wfl data db =
        (db, Except.error { status_code := 400, detail := "Invalid Data" })) ∧
    (∀ r ∈ (assess_child wfl data db).1, r ∈ db ∨ r.status ≠ "Error") ∧
    ((∀ r ∈ db, r.status ≠ "Error") →
      ∀ c : String, ∀ p ∈
        (get_dashboard_stats c (assess_child wfl data db).1).local_stats,
        p.1 ≠ "Error") := by
  have hmem : ∀ r ∈ (assess_child wfl data db).1,
      r ∈ db ∨ r.status ≠ "Error" := by
    intro r hr
    by_cases hst : (predict wfl data.weight_kg data.height_cm
        data.age_years data.sex data.edema).status = "Error"
    · left
      simpa [assess_child, hst] using hr
    · simp only [assess_child, if_neg hst, List.mem_append,
        List.mem_singleton] at hr
      rcases hr with hr | hr
      · exact Or.inl hr
      · right
        rw [hr]
        exact hst
  refine ⟨?_, hmem, ?_⟩
  · intro hst
    simp [assess_child, hst]
  · intro hdb c p hp
    obtain ⟨r, hrmem, hrstat⟩ := mem_local_stats_status c _ p hp
    rw [← hrstat]
    rcases hmem r hrmem with h | h
    · exact hdb r h
    · exact h

/-- Witness for C9: a resolver failure at a concrete request leaves the
empty store empty and raises HTTP 400. -/
theorem assess_child_never_persists_error_witness :
    assess_child (fun _ _ _ _ => Except.error "out of range")
      { anganwadi_code := "AWC-3", child_name := "kid", age_years := 9
        sex := "f", height_cm := 150, weight_kg := 40, edema := false }
      [] =
      ([], Except.error { status_code := 400, detail := "Invalid Data" }) :=
  (assess_child_never_persists_error (fun _ _ _ _ =>
    Except.error "out of range")
    { anganwadi_code := "AWC-3", child_name := "kid", age_years := 9
      sex := "f", height_cm := 150, weight_kg := 40, edema := false }
    []).1 (by decide)

/-- C10: on the success path (`predict` status is not "Error"), `/assess`
appends exactly one record — whose status, z-score and color come from the
diagnosis and whose age, sex, height and weight are the raw request inputs
(the sex string unnormalized) — keeps every earlier record unchanged, and
returns the diagnosis with the child's name. -/
theorem assess_child_success_appends (wfl : Wfl)
    (data : ChildAssessmentSchema) (db : List ChildRecord)
    (hok : (predict wfl data.weight_kg data.height_cm data.age_years
      data.sex data.edema).status ≠ "Error") :
    assess_child wfl data db =
      (db ++
        [{ anganwadi_code := data.anganwadi_code
           name := data.child_name
           age_years := data.age_years
           sex := data.sex
           height := data.height_cm
           weight := data.weight_kg
           status := (predict wfl data.weight_kg data.height_cm
             data.age_years data.sex data.edema).status
           z_score := (predict wfl data.weight_kg data.height_cm
             data.age_years data.sex data.edema).z_score
           color_code := (predict wfl data.weight_kg data.height_cm
             data.age_years data.sex data.edema).color_code }],
       Except.ok
         { child_name := data.child_name
           diagnosis := predict wfl data.weight_kg data.height_cm
             data.age_years data.sex data.edema }) := by
  simp only [assess_child, if_neg hok]

/-- Witness for C10: an edema request with sex string "Xyz" persists one
record with the raw sex and the sentinel z-score -5.0. -/
theorem assess_child_success_appends_witness :
    (assess_child (fun _ _ _ _ => Except.error "ignored")
      { anganwadi_code := "AWC-2", child_name := "kid", age_years := 2
        sex := "Xyz", height_cm := 80, weight_kg := 10, edema := true }
      []).1 =
      [{ anganwadi_code := "AWC-2", name := "kid", age_years := 2
         sex := "Xyz", height := 80, weight := 10
         status := "Severe Acute Malnutrition (SAM)", z_score := -5
         color_code := "RED" }] := by
  have h := assess_child_success_appends (fun _ _ _ _ =>
    Except.error "ignored")
    { anganwadi_code := "AWC-2", child_name := "kid", age_years := 2
      sex := "Xyz", height_cm := 80, weight_kg := 10, edema := true }
    [] (by decide)
  rw [h]
  rfl
